import Mathlib

/-!
Verification of the client-side session/authentication store of the
restaurant-app repository (`src/frontend/src/store/auth.tsx`, with the
configuration defaults of the frontend config module and the type
declarations of `src/frontend/src/types/index.ts`).

The embedding is shallow: the reducer and the storage helpers become pure
Lean functions; the browser `localStorage` facility becomes an explicit
association list of string entries together with failure flags modelling
the exceptions its `getItem`/`setItem` calls may raise (the source wraps
every storage access in `try`/`catch`); the `setTimeout`-based auto-logout
effect becomes a small discrete-time scheduler.  `JSON.stringify` /
`JSON.parse` for the stored user record are platform built-ins, not
repository code; they are modelled by an explicit injective length-prefixed
string codec with a computable partial inverse.
-/

namespace RestaurantAuth

/-- The `UserRole` enum of `types/index.ts`. -/
inductive UserRole where
  | ADMIN | OWNER | MANAGER | STAFF | CUSTOMER
deriving DecidableEq, Repr

/-- The `StaffType` enum of `types/index.ts`. -/
inductive StaffType where
  | OWNER | MANAGER | HEAD_CHEF | CHEF | WAITER | CASHIER
  | HOST | BARTENDER | KITCHEN | CLEANER | DELIVERY
deriving DecidableEq, Repr

/-- The `User` interface of `types/index.ts`.  Optional (`?`) fields become
`Option`; `permissions?: Record<string, boolean>` becomes an association
list from keys to booleans; `preferences?: Record<string, any>` carries
dynamically typed values, abstracted here as strings (no claim inspects
them). -/
structure User where
  id : String
  email : String
  first_name : String
  last_name : String
  full_name : Option String
  phone_number : Option String
  role : UserRole
  staff_type : Option StaffType
  restaurant_id : Option String
  is_active : Bool
  is_verified : Bool
  last_login_at : Option String
  permissions : Option (List (String × Bool))
  preferences : Option (List (String × String))
  created_at : String
  updated_at : Option String
deriving DecidableEq, Repr

/-- The `AuthTokens` interface of `types/index.ts`. -/
structure AuthTokens where
  access_token : String
  refresh_token : String
  token_type : String
  expires_in : Int
deriving DecidableEq, Repr

/-- The `AuthState` interface of `store/auth.tsx`. -/
structure AuthState where
  user : Option User
  tokens : Option AuthTokens
  isAuthenticated : Bool
  isLoading : Bool
  error : Option String
deriving DecidableEq, Repr

/-- The `AuthAction` union type of `store/auth.tsx`. -/
inductive AuthAction where
  | SET_LOADING (payload : Bool)
  | SET_ERROR (payload : Option String)
  | LOGIN_SUCCESS (user : User) (tokens : AuthTokens)
  | LOGOUT
  | UPDATE_USER (payload : User)
  | UPDATE_TOKENS (payload : AuthTokens)
  | CLEAR_ERROR
deriving DecidableEq, Repr

/-- Definition `initialState` of `store/auth.tsx` (lines 54-60). -/
def initialState : AuthState :=
  { user := none
  , tokens := none
  , isAuthenticated := false
  , isLoading := true
  , error := none }

/-- Function `authReducer` of `store/auth.tsx` (lines 62-118). -/
def authReducer (state : AuthState) (action : AuthAction) : AuthState :=
  match action with
  | .SET_LOADING payload =>
      { state with isLoading := payload }
  | .SET_ERROR payload =>
      { state with error := payload, isLoading := false }
  | .LOGIN_SUCCESS user tokens =>
      { state with
          user := some user
        , tokens := some tokens
        , isAuthenticated := true
        , isLoading := false
        , error := none }
  | .LOGOUT =>
      { state with
          user := none
        , tokens := none
        , isAuthenticated := false
        , isLoading := false
        , error := none }
  | .UPDATE_USER payload =>
      { state with user := some payload }
  | .UPDATE_TOKENS payload =>
      { state with tokens := some payload }
  | .CLEAR_ERROR =>
      { state with error := none }

/-- Dispatching a sequence of actions through the reducer. -/
def applyActions (s : AuthState) (l : List AuthAction) : AuthState :=
  l.foldl authReducer s

/-! ### Configuration constants

Defaults of `AUTH_CONFIG` in the frontend config module, plus the user-data
key hard-coded in `store/auth.tsx`. -/

def TOKEN_STORAGE_KEY : String := "restaurant_auth_token"

def REFRESH_TOKEN_KEY : String := "restaurant_refresh_token"

def USER_DATA_KEY : String := "restaurant_user_data"

/-- Default `SESSION_TIMEOUT`: 30 minutes in milliseconds. -/
def SESSION_TIMEOUT : Nat := 1800000

/-- Default `AUTO_LOGOUT_WARNING`: 5 minutes in milliseconds. -/
def AUTO_LOGOUT_WARNING : Nat := 300000

/-! ### The durable storage facility

`localStorage` modelled as an association list of string entries plus two
failure flags: `readFails` (a `getItem` call throws) and `writeFails` (a
`setItem` call throws, e.g. quota exceeded).  The repository wraps every
access in `try`/`catch`, so the raw operations return `Except` and the
repository-level helpers below catch the error. -/

structure Storage where
  entries : List (String × String)
  readFails : Bool
  writeFails : Bool
deriving DecidableEq, Repr

/-- Raw `localStorage.getItem`. -/
def lsGetItem (st : Storage) (key : String) : Except String (Option String) :=
  if st.readFails then .error "storage read error"
  else .ok ((st.entries.find? (fun e => e.1 == key)).map (fun e => e.2))

/-- Raw `localStorage.setItem`. -/
def lsSetItem (st : Storage) (key value : String) : Except String Storage :=
  if st.writeFails then .error "storage write error"
  else .ok { st with entries := (key, value) :: st.entries.filter (fun e => e.1 != key) }

/-- Raw `localStorage.removeItem` (never throws). -/
def lsRemoveItem (st : Storage) (key : String) : Storage :=
  { st with entries := st.entries.filter (fun e => e.1 != key) }

/-! ### User record serialization

`storeUser` calls `JSON.stringify(user)` and `getStoredUser` calls
`JSON.parse`.  These are platform built-ins, not repository code; they are
modelled by an injective length-prefixed encoding `encodeUser` with the
computable partial inverse `decodeUser`. -/

def encNat (n : Nat) : String := toString n ++ ":"

def encStr (s : String) : String := encNat s.length ++ s

def encBool (b : Bool) : String := if b then "T" else "F"

def encOpt {α : Type} (f : α → String) : Option α → String
  | none => "N"
  | some a => "S" ++ f a

def roleIdx : UserRole → Nat
  | .ADMIN => 0 | .OWNER => 1 | .MANAGER => 2 | .STAFF => 3 | .CUSTOMER => 4

def roleOfIdx : Nat → Option UserRole
  | 0 => some .ADMIN | 1 => some .OWNER | 2 => some .MANAGER
  | 3 => some .STAFF | 4 => some .CUSTOMER | _ => none

def staffIdx : StaffType → Nat
  | .OWNER => 0 | .MANAGER => 1 | .HEAD_CHEF => 2 | .CHEF => 3 | .WAITER => 4
  | .CASHIER => 5 | .HOST => 6 | .BARTENDER => 7 | .KITCHEN => 8
  | .CLEANER => 9 | .DELIVERY => 10

def staffOfIdx : Nat → Option StaffType
  | 0 => some .OWNER | 1 => some .MANAGER | 2 => some .HEAD_CHEF
  | 3 => some .CHEF | 4 => some .WAITER | 5 => some .CASHIER
  | 6 => some .HOST | 7 => some .BARTENDER | 8 => some .KITCHEN
  | 9 => some .CLEANER | 10 => some .DELIVERY | _ => none

def encList {α : Type} (f : α → String) (l : List α) : String :=
  encNat l.length ++ String.join (l.map f)

def encPerm (p : String × Bool) : String := encStr p.1 ++ encBool p.2

def encPref (p : String × String) : String := encStr p.1 ++ encStr p.2

/-- Models `JSON.stringify` for the `User` record. -/
def encodeUser (u : User) : String :=
  encStr u.id ++ encStr u.email ++ encStr u.first_name ++ encStr u.last_name
  ++ encOpt encStr u.full_name ++ encOpt encStr u.phone_number
  ++ encNat (roleIdx u.role) ++ encOpt (fun t => encNat (staffIdx t)) u.staff_type
  ++ encOpt encStr u.restaurant_id ++ encBool u.is_active ++ encBool u.is_verified
  ++ encOpt encStr u.last_login_at ++ encOpt (encList encPerm) u.permissions
  ++ encOpt (encList encPref) u.preferences ++ encStr u.created_at
  ++ encOpt encStr u.updated_at

def digitsVal (ds : List Char) : Nat :=
  ds.foldl (fun a c => a * 10 + (c.toNat - 48)) 0

def readNat (cs : List Char) : Option (Nat × List Char) :=
  let ds := cs.takeWhile Char.isDigit
  match cs.dropWhile Char.isDigit with
  | ':' :: rest => if ds.isEmpty then none else some (digitsVal ds, rest)
  | _ => none

def readStr (cs : List Char) : Option (String × List Char) := do
  let (n, cs1) ← readNat cs
  if n ≤ cs1.length then some (String.mk (cs1.take n), cs1.drop n) else none

def readBool : List Char → Option (Bool × List Char)
  | 'T' :: rest => some (true, rest)
  | 'F' :: rest => some (false, rest)
  | _ => none

def readOpt {α : Type} (f : List Char → Option (α × List Char)) :
    List Char → Option (Option α × List Char)
  | 'N' :: rest => some (none, rest)
  | 'S' :: rest => (f rest).map (fun p => (some p.1, p.2))
  | _ => none

def readRole (cs : List Char) : Option (UserRole × List Char) := do
  let (n, cs1) ← readNat cs
  match roleOfIdx n with
  | some r => some (r, cs1)
  | none => none

def readStaff (cs : List Char) : Option (StaffType × List Char) := do
  let (n, cs1) ← readNat cs
  match staffOfIdx n with
  | some t => some (t, cs1)
  | none => none

def readListAux {α : Type} (f : List Char → Option (α × List Char)) :
    Nat → List Char → Option (List α × List Char)
  | 0, cs => some ([], cs)
  | n + 1, cs => do
      let (a, cs1) ← f cs
      let (l, cs2) ← readListAux f n cs1
      some (a :: l, cs2)

def readList {α : Type} (f : List Char → Option (α × List Char))
    (cs : List Char) : Option (List α × List Char) := do
  let (n, cs1) ← readNat cs
  readListAux f n cs1

def readPerm (cs : List Char) : Option ((String × Bool) × List Char) := do
  let (k, cs1) ← readStr cs
  let (b, cs2) ← readBool cs1
  some ((k, b), cs2)

def readPref (cs : List Char) : Option ((String × String) × List Char) := do
  let (k, cs1) ← readStr cs
  let (v, cs2) ← readStr cs1
  some ((k, v), cs2)

/-- Models `JSON.parse` followed by the (unchecked) cast to `User`:
the computable partial inverse of `encodeUser`. -/
def decodeUser (s : String) : Option User := do
  let (id, cs) ← readStr s.data
  let (email, cs) ← readStr cs
  let (first_name, cs) ← readStr cs
  let (last_name, cs) ← readStr cs
  let (full_name, cs) ← readOpt readStr cs
  let (phone_number, cs) ← readOpt readStr cs
  let (role, cs) ← readRole cs
  let (staff_type, cs) ← readOpt readStaff cs
  let (restaurant_id, cs) ← readOpt readStr cs
  let (is_active, cs) ← readBool cs
  let (is_verified, cs) ← readBool cs
  let (last_login_at, cs) ← readOpt readStr cs
  let (permissions, cs) ← readOpt (readList readPerm) cs
  let (preferences, cs) ← readOpt (readList readPref) cs
  let (created_at, cs) ← readStr cs
  let (updated_at, cs) ← readOpt readStr cs
  if cs.isEmpty then
    some { id, email, first_name, last_name, full_name, phone_number, role
         , staff_type, restaurant_id, is_active, is_verified, last_login_at
         , permissions, preferences, created_at, updated_at }
  else none

/-! ### Storage helpers of `store/auth.tsx` (lines 124-198) -/

/-- Function `getStoredTokens` (lines 124-144): reads both token keys; the guard
`if (accessToken && refreshToken)` is JS truthiness, so an empty string at
either key also yields `null`; a read error is caught and yields `null`. -/
def getStoredTokens (st : Storage) : Option AuthTokens :=
  match lsGetItem st TOKEN_STORAGE_KEY, lsGetItem st REFRESH_TOKEN_KEY with
  | .ok (some accessToken), .ok (some refreshToken) =>
      if accessToken ≠ "" ∧ refreshToken ≠ "" then
        some { access_token := accessToken
             , refresh_token := refreshToken
             , token_type := "bearer"
             , expires_in := 0 }
      else none
  | _, _ => none

/-- Function `storeTokens` (lines 146-155): writes both token strings; a write error
is caught and logged, leaving whatever already succeeded. -/
def storeTokens (tokens : AuthTokens) (st : Storage) : Storage :=
  match lsSetItem st TOKEN_STORAGE_KEY tokens.access_token with
  | .error _ => st
  | .ok st1 =>
      match lsSetItem st1 REFRESH_TOKEN_KEY tokens.refresh_token with
      | .error _ => st1
      | .ok st2 => st2

/-- Function `clearStoredTokens` (lines 157-166). -/
def clearStoredTokens (st : Storage) : Storage :=
  lsRemoveItem (lsRemoveItem st TOKEN_STORAGE_KEY) REFRESH_TOKEN_KEY

/-- Function `getStoredUser` (lines 168-178): `userData ? JSON.parse(userData) : null`
with read and parse errors caught, yielding `null`. -/
def getStoredUser (st : Storage) : Option User :=
  match lsGetItem st USER_DATA_KEY with
  | .ok (some userData) => if userData ≠ "" then decodeUser userData else none
  | _ => none

/-- Function `storeUser` (lines 180-188). -/
def storeUser (user : User) (st : Storage) : Storage :=
  match lsSetItem st USER_DATA_KEY (encodeUser user) with
  | .error _ => st
  | .ok st1 => st1

/-- Function `clearStoredUser` (lines 190-198). -/
def clearStoredUser (st : Storage) : Storage :=
  lsRemoveItem st USER_DATA_KEY

/-! ### Convenience methods of the provider (lines 268-316)

Each acts on the pair of in-memory state and storage; dispatch is the
reducer, storage writes go through the helpers above. -/

def login (user : User) (tokens : AuthTokens)
    (p : AuthState × Storage) : AuthState × Storage :=
  (authReducer p.1 (.LOGIN_SUCCESS user tokens), storeTokens tokens (storeUser user p.2))

def logout (p : AuthState × Storage) : AuthState × Storage :=
  (authReducer p.1 .LOGOUT, clearStoredUser (clearStoredTokens p.2))

def updateUser (user : User) (p : AuthState × Storage) : AuthState × Storage :=
  (authReducer p.1 (.UPDATE_USER user), storeUser user p.2)

def updateTokens (tokens : AuthTokens) (p : AuthState × Storage) : AuthState × Storage :=
  (authReducer p.1 (.UPDATE_TOKENS tokens), storeTokens tokens p.2)

def setLoading (loading : Bool) (p : AuthState × Storage) : AuthState × Storage :=
  (authReducer p.1 (.SET_LOADING loading), p.2)

def setError (e : Option String) (p : AuthState × Storage) : AuthState × Storage :=
  (authReducer p.1 (.SET_ERROR e), p.2)

def clearError (p : AuthState × Storage) : AuthState × Storage :=
  (authReducer p.1 .CLEAR_ERROR, p.2)

/-- The `initializeAuth` effect (lines 212-239): sets loading, reads both
storage slices, and either adopts them via `LOGIN_SUCCESS` or clears the
loading flag.  It makes no backend call: the function takes no collaborator
beyond the storage snapshot. -/
def initializeAuth (st : Storage) (s : AuthState) : AuthState :=
  let s1 := authReducer s (.SET_LOADING true)
  match getStoredTokens st, getStoredUser st with
  | some storedTokens, some storedUser =>
      authReducer s1 (.LOGIN_SUCCESS storedUser storedTokens)
  | _, _ => authReducer s1 (.SET_LOADING false)

/-- Function `isOwnerOrManager` (lines 302-304). -/
def isOwnerOrManager (s : AuthState) : Bool :=
  match s.user with
  | some u => u.role == .OWNER || u.role == .MANAGER
  | none => false

/-- Lookup `state.user.permissions?.[permission]`: optional-chained lookup in the
permission map. -/
def permLookup (u : User) (permission : String) : Option Bool :=
  match u.permissions with
  | some perms => (perms.find? (fun e => e.1 == permission)).map (fun e => e.2)
  | none => none

/-- Function `hasPermission` (lines 306-316). -/
def hasPermission (s : AuthState) (permission : String) : Bool :=
  match s.user with
  | none => false
  | some u =>
      if u.role == .OWNER || u.role == .ADMIN then true
      else permLookup u permission == some true

/-! ### Auto-logout effect (lines 242-265)

The effect runs when `isAuthenticated`/`user` change: if authenticated, it
arms a warning timer with delay `sessionTimeout - warningTimeout` and a
logout timer with delay `sessionTimeout`; its cleanup cancels both.  The
scheduler below models one session started by `login` at time 0 with no
intervening user action: `advanceTo` fires every armed timer due by time
`t` (warning first — it is created first and never due later than the
logout timer). -/

structure LoopState where
  auth : AuthState
  storage : Storage
  warningTimer : Option Nat
  logoutTimer : Option Nat
  warningsFired : Nat
  logoutsFired : Nat
deriving DecidableEq, Repr

/-- State just after `login(user, tokens)` at time 0, with the effect's
timers armed (the guard mirrors `if (!state.isAuthenticated || !state.user)
return`). -/
def initialLoop (user : User) (tokens : AuthTokens) (s0 : AuthState)
    (st0 : Storage) (T W : Nat) : LoopState :=
  let p := login user tokens (s0, st0)
  { auth := p.1
  , storage := p.2
  , warningTimer := if p.1.isAuthenticated ∧ p.1.user ≠ none then some (T - W) else none
  , logoutTimer := if p.1.isAuthenticated ∧ p.1.user ≠ none then some T else none
  , warningsFired := 0
  , logoutsFired := 0 }

/-- The warning timer callback: `console.warn` only — no state change, so
the effect's dependencies are untouched and no timer is re-armed. -/
def fireWarningTimer (ls : LoopState) : LoopState :=
  { ls with warningTimer := none, warningsFired := ls.warningsFired + 1 }

/-- The logout timer callback: dispatches `LOGOUT` and clears storage;
the state change re-runs the effect, whose cleanup cancels both timers and
which, no longer authenticated, arms none. -/
def fireLogoutTimer (ls : LoopState) : LoopState :=
  { auth := authReducer ls.auth .LOGOUT
  , storage := clearStoredUser (clearStoredTokens ls.storage)
  , warningTimer := none
  , logoutTimer := none
  , warningsFired := ls.warningsFired
  , logoutsFired := ls.logoutsFired + 1 }

/-- Advance the event loop to time `t`, firing armed timers due by `t`. -/
def advanceTo (ls : LoopState) (t : Nat) : LoopState :=
  let ls1 :=
    match ls.warningTimer with
    | some d => if d ≤ t then fireWarningTimer ls else ls
    | none => ls
  match ls1.logoutTimer with
  | some d => if d ≤ t then fireLogoutTimer ls1 else ls1
  | none => ls1

/-! ### Concrete sample values (used by witnesses and counterexamples) -/

def sampleTokens : AuthTokens :=
  { access_token := "acc", refresh_token := "ref"
  , token_type := "bearer", expires_in := 3600 }

def sampleUser : User :=
  { id := "u1", email := "a@b.c", first_name := "Ann", last_name := "Lee"
  , full_name := none, phone_number := none, role := .MANAGER
  , staff_type := some .WAITER, restaurant_id := some "r1"
  , is_active := true, is_verified := false, last_login_at := none
  , permissions := some [("menu.edit", true), ("orders.void", false)]
  , preferences := none, created_at := "2024-01-01", updated_at := none }

def adminUser : User := { sampleUser with role := .ADMIN, permissions := none }

def emptyStorage : Storage := { entries := [], readFails := false, writeFails := false }

/-- A storage snapshot holding both token keys and a user record. -/
def fullStorage : Storage :=
  { entries := [ (TOKEN_STORAGE_KEY, "acc"), (REFRESH_TOKEN_KEY, "ref")
               , (USER_DATA_KEY, encodeUser sampleUser) ]
  , readFails := false, writeFails := false }

/-- A storage snapshot holding only the access-token key and a user record
(the refresh-token key is absent). -/
def halfStorage : Storage :=
  { entries := [ (TOKEN_STORAGE_KEY, "acc"), (USER_DATA_KEY, encodeUser sampleUser) ]
  , readFails := false, writeFails := false }

/-- The token record produced by rehydrating `fullStorage`. -/
def rehydratedTk : AuthTokens :=
  { access_token := "acc", refresh_token := "ref"
  , token_type := "bearer", expires_in := 0 }

def managerState : AuthState := { initialState with user := some sampleUser }

def adminState : AuthState := { initialState with user := some adminUser }

/-! ### Helper lemmas on association-list storage -/

lemma find?_filter_sub {α : Type} (p q : α → Bool) (l : List α)
    (h : ∀ a, p a = true → q a = true) :
    (l.filter q).find? p = l.find? p := by
  induction l with
  | nil => rfl
  | cons a l ih =>
    by_cases hq : q a = true
    · by_cases hp : p a = true
      · simp [List.filter_cons, hq, List.find?_cons, hp]
      · simp [List.filter_cons, hq, List.find?_cons, hp, ih]
    · have hp : ¬ p a = true := fun hp => hq (h a hp)
      simp [List.filter_cons, hq, List.find?_cons, hp, ih]

lemma find?_filter_out {α : Type} (p : α → Bool) (l : List α) :
    (l.filter (fun a => ! p a)).find? p = none := by
  induction l with
  | nil => rfl
  | cons a l ih =>
    by_cases hp : p a = true
    · simp [List.filter_cons, hp, ih]
    · simp [List.filter_cons, hp, List.find?_cons, ih]

lemma filter_of_all {α : Type} (p : α → Bool) (l : List α)
    (h : ∀ a ∈ l, p a = true) : l.filter p = l := by
  induction l with
  | nil => rfl
  | cons a l ih =>
    simp [List.filter_cons, h a (List.mem_cons_self a l),
      ih (fun b hb => h b (List.mem_cons_of_mem a hb))]

/-- Removing a key makes a keyed lookup on it fail. -/
lemma find?_lsRemoveItem_self (st : Storage) (k : String) :
    ((lsRemoveItem st k).entries.find? (fun e => e.1 == k)) = none := by
  have h : ∀ e : String × String, (e.1 != k) = !(e.1 == k) := by
    intro e; rfl
  unfold lsRemoveItem
  simp only [h]
  exact find?_filter_out _ st.entries

/-- Removing another key leaves a keyed lookup unchanged. -/
lemma find?_lsRemoveItem_other (st : Storage) (k k2 : String) (h : k ≠ k2) :
    ((lsRemoveItem st k2).entries.find? (fun e => e.1 == k)) =
      st.entries.find? (fun e => e.1 == k) := by
  unfold lsRemoveItem
  refine find?_filter_sub _ _ _ ?_
  intro a ha
  have : a.1 = k := by simpa using ha
  simp [this, bne_iff_ne, h]

/-- The storage part of `logout`. -/
lemma logout_storage (s : AuthState) (st : Storage) :
    (logout (s, st)).2 = clearStoredUser (clearStoredTokens st) := rfl

lemma cleared_find?_token (st : Storage) :
    ((clearStoredUser (clearStoredTokens st)).entries.find?
      (fun e => e.1 == TOKEN_STORAGE_KEY)) = none := by
  unfold clearStoredUser clearStoredTokens
  rw [find?_lsRemoveItem_other _ _ USER_DATA_KEY (by decide),
      find?_lsRemoveItem_other _ _ REFRESH_TOKEN_KEY (by decide)]
  exact find?_lsRemoveItem_self st TOKEN_STORAGE_KEY

lemma cleared_find?_refresh (st : Storage) :
    ((clearStoredUser (clearStoredTokens st)).entries.find?
      (fun e => e.1 == REFRESH_TOKEN_KEY)) = none := by
  unfold clearStoredUser clearStoredTokens
  rw [find?_lsRemoveItem_other _ _ USER_DATA_KEY (by decide)]
  exact find?_lsRemoveItem_self _ REFRESH_TOKEN_KEY

lemma cleared_find?_user (st : Storage) :
    ((clearStoredUser (clearStoredTokens st)).entries.find?
      (fun e => e.1 == USER_DATA_KEY)) = none := by
  unfold clearStoredUser
  exact find?_lsRemoveItem_self _ USER_DATA_KEY

lemma getStoredTokens_cleared (st : Storage) :
    getStoredTokens (clearStoredUser (clearStoredTokens st)) = none := by
  unfold getStoredTokens lsGetItem
  have hrf : (clearStoredUser (clearStoredTokens st)).readFails = st.readFails := rfl
  by_cases hr : st.readFails = true
  · simp [hrf, hr]
  · simp [hrf, hr, cleared_find?_token st]

lemma getStoredUser_cleared (st : Storage) :
    getStoredUser (clearStoredUser (clearStoredTokens st)) = none := by
  unfold getStoredUser lsGetItem
  have hrf : (clearStoredUser (clearStoredTokens st)).readFails = st.readFails := rfl
  by_cases hr : st.readFails = true
  · simp [hrf, hr]
  · simp [hrf, hr, cleared_find?_user st]

lemma filter3_idem {α : Type} (p q r : α → Bool) (l : List α) :
    List.filter r (List.filter q (List.filter p
      (List.filter r (List.filter q (List.filter p l))))) =
    List.filter r (List.filter q (List.filter p l)) := by
  have hp : ∀ a ∈ List.filter r (List.filter q (List.filter p l)), p a = true :=
    fun a ha => List.of_mem_filter (List.mem_of_mem_filter (List.mem_of_mem_filter ha))
  have hq : ∀ a ∈ List.filter r (List.filter q (List.filter p l)), q a = true :=
    fun a ha => List.of_mem_filter (List.mem_of_mem_filter ha)
  have hr : ∀ a ∈ List.filter r (List.filter q (List.filter p l)), r a = true :=
    fun a ha => List.of_mem_filter ha
  rw [filter_of_all p _ hp, filter_of_all q _ hq, filter_of_all r _ hr]

/-- Clearing both storage slices twice equals clearing them once. -/
lemma clear_clear (st : Storage) :
    clearStoredUser (clearStoredTokens (clearStoredUser (clearStoredTokens st))) =
      clearStoredUser (clearStoredTokens st) := by
  show ({ entries := List.filter _ (List.filter _ (List.filter _
      (List.filter _ (List.filter _ (List.filter _ st.entries)))))
        , readFails := st.readFails, writeFails := st.writeFails } : Storage) = _
  rw [filter3_idem]
  rfl

/-- One reducer step preserves "authenticated implies credentials present". -/
lemma authInv_step (s : AuthState) (a : AuthAction)
    (h : s.isAuthenticated = true → s.user ≠ none ∧ s.tokens ≠ none) :
    (authReducer s a).isAuthenticated = true →
      (authReducer s a).user ≠ none ∧ (authReducer s a).tokens ≠ none := by
  cases a with
  | SET_LOADING p => exact fun ha => h ha
  | SET_ERROR p => exact fun ha => h ha
  | LOGIN_SUCCESS u tk => exact fun _ => ⟨Option.some_ne_none _, Option.some_ne_none _⟩
  | LOGOUT => exact fun ha => absurd ha (by simp [authReducer])
  | UPDATE_USER p => exact fun ha => ⟨Option.some_ne_none _, (h ha).2⟩
  | UPDATE_TOKENS p => exact fun ha => ⟨(h ha).1, Option.some_ne_none _⟩
  | CLEAR_ERROR => exact fun ha => h ha

lemma authInv_applyActions (l : List AuthAction) (s : AuthState)
    (h : s.isAuthenticated = true → s.user ≠ none ∧ s.tokens ≠ none) :
    (applyActions s l).isAuthenticated = true →
      (applyActions s l).user ≠ none ∧ (applyActions s l).tokens ≠ none := by
  induction l generalizing s with
  | nil => exact h
  | cons a l ih => exact ih (authReducer s a) (authInv_step s a h)

/-! ### Claims -/

/-- C1 (amended): in every state reachable from the initial auth state by
dispatched actions, if `isAuthenticated` is true then both `user` and
`tokens` are non-null.  (The converse direction of the claimed iff fails:
see the counterexample.) -/
theorem reachable_auth_implies_credentials (l : List AuthAction) :
    (applyActions initialState l).isAuthenticated = true →
    (applyActions initialState l).user ≠ none ∧
      (applyActions initialState l).tokens ≠ none :=
  authInv_applyActions l initialState (fun ha => absurd ha (by decide))

/-- C1 counterexample: dispatching `UPDATE_TOKENS` then `UPDATE_USER` from
the initial state reaches a state whose `user` and `tokens` are both
non-null while `isAuthenticated` is false, refuting the claimed iff. -/
theorem reachable_auth_iff_cex :
    (applyActions initialState
      [.UPDATE_TOKENS sampleTokens, .UPDATE_USER sampleUser]).isAuthenticated = false ∧
    (applyActions initialState
      [.UPDATE_TOKENS sampleTokens, .UPDATE_USER sampleUser]).user ≠ none ∧
    (applyActions initialState
      [.UPDATE_TOKENS sampleTokens, .UPDATE_USER sampleUser]).tokens ≠ none :=
  ⟨rfl, Option.some_ne_none _, Option.some_ne_none _⟩

/-- C1 witness: after `LOGIN_SUCCESS` the hypothesis `isAuthenticated = true`
holds and both credential fields are non-null. -/
theorem reachable_auth_implies_credentials_witness :
    (applyActions initialState
      [.LOGIN_SUCCESS sampleUser sampleTokens]).isAuthenticated = true ∧
    ((applyActions initialState
        [.LOGIN_SUCCESS sampleUser sampleTokens]).user ≠ none ∧
      (applyActions initialState
        [.LOGIN_SUCCESS sampleUser sampleTokens]).tokens ≠ none) :=
  ⟨rfl, reachable_auth_implies_credentials _ rfl⟩

/-- C2 counterexample: `setError` does not change only the `error` field —
on the initial state (whose `isLoading` is true) it also forces `isLoading`
to false. -/
theorem setError_changes_isLoading_cex :
    (setError (some "boom") (initialState, emptyStorage)).1.isLoading ≠
      initialState.isLoading := by decide

/-- C2 (amended): `setLoading b` changes only the `isLoading` field and
writes nothing to storage; `setError e` sets `error` to `e` and `isLoading`
to false, changes no other field, and writes nothing to storage. -/
theorem status_flag_frame (b : Bool) (e : Option String)
    (s : AuthState) (st : Storage) :
    setLoading b (s, st) = ({ s with isLoading := b }, st) ∧
    setError e (s, st) = ({ s with error := e, isLoading := false }, st) :=
  ⟨rfl, rfl⟩

/-- C3: `logout` is idempotent on the in-memory state and the storage, it
unconditionally clears `user`, `tokens`, `isAuthenticated`, `isLoading` and
`error`, and it removes the access-token, refresh-token and user-record
keys from storage.  Both calls are total functions: the second raises no
error (storage removal never throws; the helpers catch all exceptions). -/
theorem logout_idempotent (s : AuthState) (st : Storage) :
    logout (logout (s, st)) = logout (s, st) ∧
    (logout (s, st)).1 = { user := none, tokens := none, isAuthenticated := false
                         , isLoading := false, error := none } ∧
    (logout (s, st)).2.entries.find? (fun e => e.1 == TOKEN_STORAGE_KEY) = none ∧
    (logout (s, st)).2.entries.find? (fun e => e.1 == REFRESH_TOKEN_KEY) = none ∧
    (logout (s, st)).2.entries.find? (fun e => e.1 == USER_DATA_KEY) = none := by
  refine ⟨?_, rfl, cleared_find?_token st, cleared_find?_refresh st, cleared_find?_user st⟩
  calc logout (logout (s, st))
      = (authReducer s .LOGOUT,
         clearStoredUser (clearStoredTokens (clearStoredUser (clearStoredTokens st)))) := rfl
    _ = (authReducer s .LOGOUT, clearStoredUser (clearStoredTokens st)) := by
          rw [clear_clear]
    _ = logout (s, st) := rfl

/-- C6: immediately after `logout`, `getStoredTokens` and `getStoredUser`
return `none`, and all three storage keys are absent. -/
theorem logout_storage_reads_none (s : AuthState) (st : Storage) :
    getStoredTokens (logout (s, st)).2 = none ∧
    getStoredUser (logout (s, st)).2 = none ∧
    (logout (s, st)).2.entries.find? (fun e => e.1 == TOKEN_STORAGE_KEY) = none ∧
    (logout (s, st)).2.entries.find? (fun e => e.1 == REFRESH_TOKEN_KEY) = none ∧
    (logout (s, st)).2.entries.find? (fun e => e.1 == USER_DATA_KEY) = none :=
  ⟨getStoredTokens_cleared st, getStoredUser_cleared st, cleared_find?_token st,
   cleared_find?_refresh st, cleared_find?_user st⟩

/-- C4: if storage holds both a token pair and a user record, rehydration
yields `isAuthenticated = true` and `isLoading = false`.  `initializeAuth`
takes no collaborator other than the storage snapshot, so no backend call
is involved. -/
theorem initialize_both_present (st : Storage) (s : AuthState)
    (tk : AuthTokens) (u : User)
    (htk : getStoredTokens st = some tk) (hu : getStoredUser st = some u) :
    (initializeAuth st s).isAuthenticated = true ∧
      (initializeAuth st s).isLoading = false := by
  unfold initializeAuth
  rw [htk, hu]
  exact ⟨rfl, rfl⟩

/-- C4 witness: a concrete storage with both token keys and a user record. -/
theorem initialize_both_present_witness :
    getStoredTokens fullStorage = some rehydratedTk ∧
    getStoredUser fullStorage = some sampleUser ∧
    ((initializeAuth fullStorage initialState).isAuthenticated = true ∧
      (initializeAuth fullStorage initialState).isLoading = false) :=
  ⟨rfl, rfl, initialize_both_present fullStorage initialState rehydratedTk sampleUser rfl rfl⟩

/-- C5: if exactly one of the user record and the token pair is present in
storage (the token pair counts as absent when either token key is missing,
since `getStoredTokens` then returns `null`), rehydration from the initial
state yields `isAuthenticated = false`. -/
theorem initialize_one_present (st : Storage)
    (h : ((∃ u, getStoredUser st = some u) ∧ getStoredTokens st = none) ∨
         ((∃ tk, getStoredTokens st = some tk) ∧ getStoredUser st = none)) :
    (initializeAuth st initialState).isAuthenticated = false := by
  unfold initializeAuth
  rcases h with ⟨⟨u, hu⟩, htk⟩ | ⟨⟨tk, htk⟩, hu⟩ <;> rw [htk, hu] <;> rfl

/-- C5 witness: a storage holding a user record and only the access-token
key (the refresh-token key is absent), exercising the one-token-key case. -/
theorem initialize_one_present_witness :
    ((∃ u, getStoredUser halfStorage = some u) ∧ getStoredTokens halfStorage = none) ∧
    (initializeAuth halfStorage initialState).isAuthenticated = false :=
  ⟨⟨⟨sampleUser, rfl⟩, rfl⟩,
   initialize_one_present halfStorage (Or.inl ⟨⟨sampleUser, rfl⟩, rfl⟩)⟩

lemma find?_key_cons_self (k v : String) (l : List (String × String)) :
    ((k, v) :: l).find? (fun e => e.1 == k) = some (k, v) :=
  List.find?_cons_of_pos _ (by simp)

lemma find?_key_cons_other (k k2 v2 : String) (l : List (String × String))
    (h : k2 ≠ k) :
    ((k2, v2) :: l).find? (fun e => e.1 == k) = l.find? (fun e => e.1 == k) :=
  List.find?_cons_of_neg _ (by simp [h])

lemma find?_key_filter_other (k k2 : String) (l : List (String × String))
    (h : k ≠ k2) :
    (l.filter (fun e => e.1 != k2)).find? (fun e => e.1 == k) =
      l.find? (fun e => e.1 == k) := by
  refine find?_filter_sub _ _ _ ?_
  intro a ha
  have h1 : a.1 = k := by simpa using ha
  simp [h1, h]

/-- Entries of the storage after a successful `login` write-through. -/
lemma login_storage_entries (u : User) (tk : AuthTokens) (st : Storage)
    (hw : st.writeFails = false) :
    (storeTokens tk (storeUser u st)).entries =
      (REFRESH_TOKEN_KEY, tk.refresh_token) ::
        List.filter (fun e => e.1 != REFRESH_TOKEN_KEY)
          ((TOKEN_STORAGE_KEY, tk.access_token) ::
            List.filter (fun e => e.1 != TOKEN_STORAGE_KEY)
              ((USER_DATA_KEY, encodeUser u) ::
                List.filter (fun e => e.1 != USER_DATA_KEY) st.entries)) := by
  unfold storeTokens storeUser lsSetItem
  simp [hw]

/-- C8: `login(user, tokens)` always sets the in-memory state to
authenticated (user and tokens set, `isAuthenticated` true, `isLoading`
false, `error` null); when the storage write succeeds it persists both the
token pair and the user record, and when the write throws the error is
swallowed inside the helpers (they are total functions returning the
unchanged storage), so the in-memory state still updates. -/
theorem login_updates_state_and_persists (u : User) (tk : AuthTokens)
    (s : AuthState) (st : Storage) :
    (login u tk (s, st)).1 =
      { s with
          user := some u, tokens := some tk, isAuthenticated := true,
          isLoading := false, error := none } ∧
    (if st.writeFails then (login u tk (s, st)).2 = st
     else
       (login u tk (s, st)).2.entries.find? (fun e => e.1 == TOKEN_STORAGE_KEY) =
           some (TOKEN_STORAGE_KEY, tk.access_token) ∧
       (login u tk (s, st)).2.entries.find? (fun e => e.1 == REFRESH_TOKEN_KEY) =
           some (REFRESH_TOKEN_KEY, tk.refresh_token) ∧
       (login u tk (s, st)).2.entries.find? (fun e => e.1 == USER_DATA_KEY) =
           some (USER_DATA_KEY, encodeUser u)) := by
  refine ⟨rfl, ?_⟩
  by_cases hw : st.writeFails = true
  · rw [if_pos hw]
    show storeTokens tk (storeUser u st) = st
    unfold storeTokens storeUser lsSetItem
    simp [hw]
  · have hw' : st.writeFails = false := by revert hw; cases st.writeFails <;> simp
    rw [if_neg hw]
    have hent := login_storage_entries u tk st hw'
    refine ⟨?_, ?_, ?_⟩
    · show (storeTokens tk (storeUser u st)).entries.find? _ = _
      rw [hent,
        find?_key_cons_other _ _ _ _ (by decide),
        find?_key_filter_other _ _ _ (by decide),
        find?_key_cons_self]
    · show (storeTokens tk (storeUser u st)).entries.find? _ = _
      rw [hent, find?_key_cons_self]
    · show (storeTokens tk (storeUser u st)).entries.find? _ = _
      rw [hent,
        find?_key_cons_other _ _ _ _ (by decide),
        find?_key_filter_other _ _ _ (by decide),
        find?_key_cons_other _ _ _ _ (by decide),
        find?_key_filter_other _ _ _ (by decide),
        find?_key_cons_self]

/-- C9: `hasPermission p` is false with no user; unconditionally true for
OWNER and ADMIN (never unconditionally for MANAGER, which falls into the
map-lookup case); for every other role it is true exactly when the
permission map maps `p` to true — so an absent map or unknown key denies. -/
theorem hasPermission_cases (p : String) :
    (∀ s, s.user = none → hasPermission s p = false) ∧
    (∀ s u, s.user = some u → (u.role = .OWNER ∨ u.role = .ADMIN) →
        hasPermission s p = true) ∧
    (∀ s u, s.user = some u → u.role ≠ .OWNER → u.role ≠ .ADMIN →
        (hasPermission s p = true ↔ permLookup u p = some true)) ∧
    (∀ s u, s.user = some u → u.role ≠ .OWNER → u.role ≠ .ADMIN →
        permLookup u p = none → hasPermission s p = false) := by
  have hguard : ∀ u : User, u.role ≠ .OWNER → u.role ≠ .ADMIN →
      (u.role == UserRole.OWNER || u.role == UserRole.ADMIN) = false := by
    intro u h1 h2
    cases hu : u.role
    · exact absurd hu h2
    · exact absurd hu h1
    all_goals rfl
  refine ⟨?_, ?_, ?_, ?_⟩
  · intro s hs
    unfold hasPermission
    rw [hs]
  · intro s u hs hrole
    unfold hasPermission
    rw [hs]
    rcases hrole with h | h <;> simp [h]
  · intro s u hs h1 h2
    unfold hasPermission
    rw [hs]
    simp [hguard u h1 h2]
  · intro s u hs h1 h2 hl
    unfold hasPermission
    rw [hs]
    simp [hguard u h1 h2, hl]

/-- C9 witness: concrete states for each case — no user, an ADMIN, and a
MANAGER whose map grants `menu.edit` but lacks `kitchen.manage`. -/
theorem hasPermission_cases_witness :
    hasPermission initialState "menu.edit" = false ∧
    hasPermission adminState "menu.edit" = true ∧
    (hasPermission managerState "menu.edit" = true ↔
      permLookup sampleUser "menu.edit" = some true) ∧
    hasPermission managerState "kitchen.manage" = false :=
  ⟨(hasPermission_cases "menu.edit").1 initialState rfl,
   (hasPermission_cases "menu.edit").2.1 adminState adminUser rfl (Or.inr rfl),
   (hasPermission_cases "menu.edit").2.2.1 managerState sampleUser rfl
     (by decide) (by decide),
   (hasPermission_cases "kitchen.manage").2.2.2 managerState sampleUser rfl
     (by decide) (by decide) rfl⟩

/-- C10: any token record returned by `getStoredTokens` has
`token_type = "bearer"` and `expires_in = 0`, whatever was stored; and a
store-then-read round-trips exactly the two token strings (when the
storage is healthy and the strings non-empty, since an empty string is
falsy under the JS guard). -/
theorem rehydrated_tokens_normalized :
    (∀ st tk, getStoredTokens st = some tk →
        tk.token_type = "bearer" ∧ tk.expires_in = 0) ∧
    (∀ tk st, st.readFails = false → st.writeFails = false →
      tk.access_token ≠ "" → tk.refresh_token ≠ "" →
      getStoredTokens (storeTokens tk st) =
        some { access_token := tk.access_token
             , refresh_token := tk.refresh_token
             , token_type := "bearer", expires_in := 0 }) := by
  constructor
  · intro st tk h
    unfold getStoredTokens at h
    split at h
    · split at h
      · cases h
        exact ⟨rfl, rfl⟩
      · exact absurd h (by simp)
    · exact absurd h (by simp)
  · intro tk st hr hw ha hb
    have hent : (storeTokens tk st).entries =
        (REFRESH_TOKEN_KEY, tk.refresh_token) ::
          List.filter (fun e => e.1 != REFRESH_TOKEN_KEY)
            ((TOKEN_STORAGE_KEY, tk.access_token) ::
              List.filter (fun e => e.1 != TOKEN_STORAGE_KEY) st.entries) := by
      unfold storeTokens lsSetItem
      simp [hw]
    have hrf : (storeTokens tk st).readFails = st.readFails := by
      unfold storeTokens lsSetItem
      simp [hw]
    have h1 : lsGetItem (storeTokens tk st) TOKEN_STORAGE_KEY =
        .ok (some tk.access_token) := by
      unfold lsGetItem
      rw [hrf, hr]
      rw [if_neg (by simp), hent,
        find?_key_cons_other _ _ _ _ (by decide),
        find?_key_filter_other _ _ _ (by decide),
        find?_key_cons_self]
      rfl
    have h2 : lsGetItem (storeTokens tk st) REFRESH_TOKEN_KEY =
        .ok (some tk.refresh_token) := by
      unfold lsGetItem
      rw [hrf, hr]
      rw [if_neg (by simp), hent, find?_key_cons_self]
      rfl
    unfold getStoredTokens
    rw [h1, h2]
    simp [ha, hb]

/-- C10 witness: rehydrating `fullStorage` yields the normalized record,
and storing `sampleTokens` (whose `expires_in` is 3600) then reading back
yields `expires_in = 0` with only the strings preserved. -/
theorem rehydrated_tokens_normalized_witness :
    (rehydratedTk.token_type = "bearer" ∧ rehydratedTk.expires_in = 0) ∧
    getStoredTokens (storeTokens sampleTokens emptyStorage) =
      some { access_token := sampleTokens.access_token
           , refresh_token := sampleTokens.refresh_token
           , token_type := "bearer", expires_in := 0 } :=
  ⟨rehydrated_tokens_normalized.1 fullStorage rehydratedTk rfl,
   rehydrated_tokens_normalized.2 sampleTokens emptyStorage rfl rfl
     (by decide) (by decide)⟩

/-- C7: for a session started by `login` at time 0 with no intervening
action, and `W < T`: the warning has fired exactly once from elapsed time
`T - W` on (and never before), the forced logout has happened exactly once
from elapsed time `T` on (with `user` and `tokens` null and both storage
slices unreadable), and the session is never authenticated at or past `T`. -/
theorem session_timers (T W t : Nat) (u : User) (tk : AuthTokens)
    (s0 : AuthState) (st0 : Storage) (hWT : W < T) :
    (advanceTo (initialLoop u tk s0 st0 T W) t).warningsFired =
        (if T - W ≤ t then 1 else 0) ∧
    (advanceTo (initialLoop u tk s0 st0 T W) t).logoutsFired =
        (if T ≤ t then 1 else 0) ∧
    (advanceTo (initialLoop u tk s0 st0 T W) t).auth.isAuthenticated =
        (if T ≤ t then false else true) ∧
    (if T ≤ t then
        (advanceTo (initialLoop u tk s0 st0 T W) t).auth.user = none ∧
        (advanceTo (initialLoop u tk s0 st0 T W) t).auth.tokens = none ∧
        getStoredTokens (advanceTo (initialLoop u tk s0 st0 T W) t).storage = none ∧
        getStoredUser (advanceTo (initialLoop u tk s0 st0 T W) t).storage = none
      else
        (advanceTo (initialLoop u tk s0 st0 T W) t).auth.user = some u ∧
        (advanceTo (initialLoop u tk s0 st0 T W) t).auth.tokens = some tk) := by
  have hsub : T - W ≤ T := Nat.sub_le T W
  by_cases h1 : T - W ≤ t
  · by_cases h2 : T ≤ t
    · simp [advanceTo, initialLoop, login, fireWarningTimer, fireLogoutTimer,
        authReducer, h1, h2, getStoredTokens_cleared, getStoredUser_cleared]
    · simp [advanceTo, initialLoop, login, fireWarningTimer, fireLogoutTimer,
        authReducer, h1, h2]
  · by_cases h2 : T ≤ t
    · exact absurd (le_trans hsub h2) h1
    · simp [advanceTo, initialLoop, login, fireWarningTimer, fireLogoutTimer,
        authReducer, h1, h2]

/-- C7 witness: the configuration defaults `T = 1800000`, `W = 300000` at
the logout instant `t = T`. -/
theorem session_timers_witness :
    AUTO_LOGOUT_WARNING < SESSION_TIMEOUT ∧
    ((advanceTo (initialLoop sampleUser sampleTokens initialState emptyStorage
        SESSION_TIMEOUT AUTO_LOGOUT_WARNING) SESSION_TIMEOUT).warningsFired =
          (if SESSION_TIMEOUT - AUTO_LOGOUT_WARNING ≤ SESSION_TIMEOUT then 1 else 0) ∧
     (advanceTo (initialLoop sampleUser sampleTokens initialState emptyStorage
        SESSION_TIMEOUT AUTO_LOGOUT_WARNING) SESSION_TIMEOUT).logoutsFired =
          (if SESSION_TIMEOUT ≤ SESSION_TIMEOUT then 1 else 0) ∧
     (advanceTo (initialLoop sampleUser sampleTokens initialState emptyStorage
        SESSION_TIMEOUT AUTO_LOGOUT_WARNING) SESSION_TIMEOUT).auth.isAuthenticated =
          (if SESSION_TIMEOUT ≤ SESSION_TIMEOUT then false else true) ∧
     (if SESSION_TIMEOUT ≤ SESSION_TIMEOUT then
        (advanceTo (initialLoop sampleUser sampleTokens initialState emptyStorage
          SESSION_TIMEOUT AUTO_LOGOUT_WARNING) SESSION_TIMEOUT).auth.user = none ∧
        (advanceTo (initialLoop sampleUser sampleTokens initialState emptyStorage
          SESSION_TIMEOUT AUTO_LOGOUT_WARNING) SESSION_TIMEOUT).auth.tokens = none ∧
        getStoredTokens (advanceTo (initialLoop sampleUser sampleTokens initialState
          emptyStorage SESSION_TIMEOUT AUTO_LOGOUT_WARNING) SESSION_TIMEOUT).storage = none ∧
        getStoredUser (advanceTo (initialLoop sampleUser sampleTokens initialState
          emptyStorage SESSION_TIMEOUT AUTO_LOGOUT_WARNING) SESSION_TIMEOUT).storage = none
      else
        (advanceTo (initialLoop sampleUser sampleTokens initialState emptyStorage
          SESSION_TIMEOUT AUTO_LOGOUT_WARNING) SESSION_TIMEOUT).auth.user = some sampleUser ∧
        (advanceTo (initialLoop sampleUser sampleTokens initialState emptyStorage
          SESSION_TIMEOUT AUTO_LOGOUT_WARNING) SESSION_TIMEOUT).auth.tokens = some sampleTokens)) :=
  ⟨by decide,
   session_timers SESSION_TIMEOUT AUTO_LOGOUT_WARNING SESSION_TIMEOUT
     sampleUser sampleTokens initialState emptyStorage (by decide)⟩

end RestaurantAuth
